import Mathlib

/-
Verification of the HAIRO backup-power models.

Two state machines are embedded shallowly over ℚ:
  * HFS — the hydrogen fuel system of
    src/myLibs/prviousLibsERIS/PowerBackupSystem_v1.py
    (class HFS: produce / consume / idle with thermal and pressure coupling);
  * EnergyStorageSystem — the lithium-ion battery bank of
    src/myLibs/backupPowerSystems.py
    (dataclass EnergyStorageSystem: charge / discharge / observe).

Python floats are modelled as exact rationals; Python round(x, d) is modelled
by roundTo d (round-half-up on ℚ).  None of the concrete values checked below
sit on a rounding tie, so the half-even / half-up difference is irrelevant.
Status strings are modelled by structured status values carrying exactly the
information the Python code interpolates into the strings.
-/

namespace HAIRO

/-- Model of Python round(x, d): round to d decimal places. -/
def roundTo (d : ℕ) (x : ℚ) : ℚ := ((round (x * 10 ^ d) : ℤ) : ℚ) / 10 ^ d

/-! ## Hydrogen Fuel System (class HFS, PowerBackupSystem_v1.py)

System specifications fixed in HFS.__init__. -/

def tank_capacity_kg : ℚ := 150
def tank_volume_liters : ℚ := 2250
def electrolyzer_efficiency : ℚ := 0.65
def fuelcell_efficiency : ℚ := 0.53
def h2_energy_kwh_per_kg : ℚ := 39.4
def electrolyzer_max_kw : ℚ := 100
def fuelcell_max_kw : ℚ := 30
def nominal_pressure_bar : ℚ := 600

/-- Thermal constants of HFS._update_temperature. -/
def alpha_prod : ℚ := 1.5
def alpha_cons : ℚ := 1.2
def beta_cooldown : ℚ := 0.5

/-- Gas constants of HFS._update_pressure: R in bar·L/(mol·K) and the molar
mass of H2 in g/mol. -/
def gas_constant_R : ℚ := 0.08314
def molar_mass_h2 : ℚ := 2.016

/-- Dynamic state of the hydrogen fuel system: the three mutable attributes
h2_kg, temperature_c, pressure_bar of the Python class. -/
structure HFS where
  h2_kg : ℚ
  temperature_c : ℚ
  pressure_bar : ℚ
deriving DecidableEq, Repr

/-- HFS.__init__(initial_sof, initial_temperature_c, initial_pressure_bar):
mass is initial_sof percent of the tank capacity; temperature and pressure
are taken as given (Python defaults: 28.0, 25.0, 314). -/
def HFS.init (initial_sof initial_temperature_c initial_pressure_bar : ℚ) : HFS :=
  { h2_kg := initial_sof / 100 * tank_capacity_kg
    temperature_c := initial_temperature_c
    pressure_bar := initial_pressure_bar }

/-- The ideal-gas pressure n·R·T/V of HFS._update_pressure, before rounding:
n = mass·1000/2.016 mol, T = temperature + 273.15 K, V = tank volume. -/
def idealGasPressure (h2_kg temperature_c : ℚ) : ℚ :=
  h2_kg * 1000 / molar_mass_h2 * gas_constant_R * (temperature_c + 273.15) /
    tank_volume_liters

/-- HFS._update_pressure: pressure_bar := round(nRT/V, 1). -/
def HFS.update_pressure (s : HFS) : HFS :=
  { s with pressure_bar := roundTo 1 (idealGasPressure s.h2_kg s.temperature_c) }

/-- The action argument of HFS._update_temperature (a string in Python). -/
inductive TempAction where
  | produce
  | consume
  | idle
deriving DecidableEq, Repr

/-- HFS._update_temperature(action, power_kw, max_kw, delta_t_hr): heating
proportional to the load fraction on produce/consume, fixed cooling on idle,
clamped below at 0 °C. -/
def HFS.update_temperature (s : HFS) (action : TempAction)
    (power_kw max_kw delta_t_hr : ℚ) : HFS :=
  let t :=
    match action with
    | TempAction.produce => s.temperature_c + alpha_prod * (power_kw / max_kw) * delta_t_hr
    | TempAction.consume => s.temperature_c + alpha_cons * (power_kw / max_kw) * delta_t_hr
    | TempAction.idle => s.temperature_c - beta_cooldown * delta_t_hr
  { s with temperature_c := max 0 t }

/-- The base message chosen by produce/consume/idle before any suffix is
appended (first assignment to the Python status variable). -/
inductive StatusBase where
  | ok
  | pausedCooling
  | pausedVenting
  | limitedElectrolyzer
  | limitedFuelCell
  | idleCooling
deriving DecidableEq, Repr

/-- Structured model of the Python status string: the base message plus the
optional " | Tank Full" / " | Tank Empty" suffixes. -/
structure Status where
  base : StatusBase
  tankFull : Bool
  tankEmpty : Bool
deriving DecidableEq, Repr

/-- The tuple returned by HFS._report: mass rounded to 2 decimals, fill
percent rounded to 1 decimal, and the status message, into which the Python
code also interpolates the rounded temperature and the pressure. -/
structure Report where
  h2_kg : ℚ
  sof_percent : ℚ
  status : Status
  temp_c : ℚ
  pressure_bar : ℚ
deriving DecidableEq, Repr

/-- HFS._report(status_msg). -/
def HFS.report (s : HFS) (st : Status) : Report :=
  { h2_kg := roundTo 2 s.h2_kg
    sof_percent := roundTo 1 (s.h2_kg / tank_capacity_kg * 100)
    status := st
    temp_c := roundTo 1 s.temperature_c
    pressure_bar := s.pressure_bar }

/-- HFS.produce(h2_production_power_kw, delta_t_hr): overheat gate, then
over-pressure gate (vent: pressure_bar := 314), then power cap, mass update
clamped at the tank capacity, temperature update, pressure update. -/
def HFS.produce (s : HFS) (h2_production_power_kw delta_t_hr : ℚ) : HFS × Report :=
  if 45 < s.temperature_c then
    let s1 := s.update_temperature TempAction.idle 0 1 delta_t_hr
    (s1, s1.report ⟨StatusBase.pausedCooling, false, false⟩)
  else if nominal_pressure_bar < s.pressure_bar then
    let s1 : HFS := { s with pressure_bar := 314 }
    (s1, s1.report ⟨StatusBase.pausedVenting, false, false⟩)
  else
    let actual_power_kw := min h2_production_power_kw electrolyzer_max_kw
    let base :=
      if electrolyzer_max_kw < h2_production_power_kw then StatusBase.limitedElectrolyzer
      else StatusBase.ok
    let h2_produced_kg :=
      actual_power_kw * electrolyzer_efficiency / h2_energy_kwh_per_kg * delta_t_hr
    let m := s.h2_kg + h2_produced_kg
    let full : Bool := if tank_capacity_kg < m then true else false
    let s1 : HFS := { s with h2_kg := if tank_capacity_kg < m then tank_capacity_kg else m }
    let s2 := (s1.update_temperature TempAction.produce actual_power_kw
      electrolyzer_max_kw delta_t_hr).update_pressure
    (s2, s2.report ⟨base, full, false⟩)

/-- HFS.consume(h2_consumption_power_kw, delta_t_hr): overheat gate, power
cap, mass withdrawal clamped at 0, temperature update, pressure update. -/
def HFS.consume (s : HFS) (h2_consumption_power_kw delta_t_hr : ℚ) : HFS × Report :=
  if 45 < s.temperature_c then
    let s1 := s.update_temperature TempAction.idle 0 1 delta_t_hr
    (s1, s1.report ⟨StatusBase.pausedCooling, false, false⟩)
  else
    let actual_power_kw := min h2_consumption_power_kw fuelcell_max_kw
    let base :=
      if fuelcell_max_kw < h2_consumption_power_kw then StatusBase.limitedFuelCell
      else StatusBase.ok
    let h2_needed_kg :=
      actual_power_kw / (fuelcell_efficiency * h2_energy_kwh_per_kg) * delta_t_hr
    let m := s.h2_kg - h2_needed_kg
    let empty : Bool := if m < 0 then true else false
    let s1 : HFS := { s with h2_kg := if m < 0 then 0 else m }
    let s2 := (s1.update_temperature TempAction.consume actual_power_kw
      fuelcell_max_kw delta_t_hr).update_pressure
    (s2, s2.report ⟨base, false, empty⟩)

/-- HFS.idle(delta_t_hr): cool down, recompute pressure. -/
def HFS.idle (s : HFS) (delta_t_hr : ℚ) : HFS × Report :=
  let s1 := (s.update_temperature TempAction.idle 0 1 delta_t_hr).update_pressure
  (s1, s1.report ⟨StatusBase.idleCooling, false, false⟩)

/-- One operation request on the hydrogen system. -/
inductive HOp where
  | produce (power_kw delta_t_hr : ℚ)
  | consume (power_kw delta_t_hr : ℚ)
  | idle (delta_t_hr : ℚ)

/-- A valid call per the interface contract: non-negative power, positive
time step. -/
def HOp.valid : HOp → Prop
  | HOp.produce p dt => 0 ≤ p ∧ 0 < dt
  | HOp.consume p dt => 0 ≤ p ∧ 0 < dt
  | HOp.idle dt => 0 < dt

instance : DecidablePred HOp.valid := by
  intro op
  cases op <;> simp only [HOp.valid] <;> infer_instance

/-- State reached after one operation (the Python methods mutate self and
additionally return a report; the state component is the mutation). -/
def HFS.step (s : HFS) (op : HOp) : HFS :=
  match op with
  | HOp.produce p dt => (s.produce p dt).1
  | HOp.consume p dt => (s.consume p dt).1
  | HOp.idle dt => (s.idle dt).1

/-- State reached after a sequence of operations. -/
def HFS.run (s : HFS) (ops : List HOp) : HFS := ops.foldl HFS.step s

/-- The safety gates an operation must pass for its main path to execute:
produce requires no overheat and no over-pressure, consume requires no
overheat, idle is unconditional. -/
def gatesPass (s : HFS) : HOp → Prop
  | HOp.produce _ _ => s.temperature_c ≤ 45 ∧ s.pressure_bar ≤ nominal_pressure_bar
  | HOp.consume _ _ => s.temperature_c ≤ 45
  | HOp.idle _ => True

/-- The stored pressure agrees with the rounded ideal-gas law at the stored
mass and temperature. -/
def pressureConsistent (s : HFS) : Prop :=
  s.pressure_bar = roundTo 1 (idealGasPressure s.h2_kg s.temperature_c)

instance : DecidablePred pressureConsistent := by
  intro s
  unfold pressureConsistent
  infer_instance

/-! ## Lithium-ion battery bank (dataclass EnergyStorageSystem,
backupPowerSystems.py) -/

/-- The status strings assigned by the battery model. -/
inductive BStatus where
  | batteryFull
  | chargeRejectedFull
  | dischargeRejectedLow
  | charging
  | discharging
  | idle
deriving DecidableEq, Repr

/-- Fields of the EnergyStorageSystem dataclass after __post_init__
(E_B = unit_kwh · stacks · autonomy_days, energy_kwh = soc · E_B).
The integer stack count is embedded into ℚ. -/
structure EnergyStorageSystem where
  «stacks» : ℚ
  autonomy_days : ℚ
  unit_kwh : ℚ
  eta_c : ℚ
  eta_d : ℚ
  soc_min : ℚ
  soc_max : ℚ
  soc : ℚ
  status : BStatus
  energy_kwh : ℚ
  E_B : ℚ
deriving DecidableEq, Repr

/-- Dataclass construction followed by __post_init__.  Python defaults:
stacks=16, autonomy_days=3.0, unit_kwh=12.8, eta_c=eta_d=0.96,
soc_min=0.20, soc_max=0.90, soc=1.00, status="Battery Full". -/
def EnergyStorageSystem.init («stacks» autonomy_days unit_kwh eta_c eta_d
    soc_min soc_max soc : ℚ) : EnergyStorageSystem :=
  let e := unit_kwh * «stacks» * autonomy_days
  { «stacks» := «stacks»
    autonomy_days := autonomy_days
    unit_kwh := unit_kwh
    eta_c := eta_c
    eta_d := eta_d
    soc_min := soc_min
    soc_max := soc_max
    soc := soc
    status := BStatus.batteryFull
    energy_kwh := soc * e
    E_B := e }

/-- The EnergyStorageSystem built with every dataclass default. -/
def EnergyStorageSystem.default : EnergyStorageSystem :=
  EnergyStorageSystem.init 16 3 12.8 0.96 0.96 0.2 0.9 1

/-- EnergyStorageSystem.charge(p_in_kw, dt_hr): raises ValueError on
dt_hr ≤ 0; rejects when soc ≥ soc_max; otherwise adds
min(p·η_BC·dt, soc_max·E_B − energy) and returns the rounded snapshot.
The status is "Charging" exactly when the added energy is non-zero
(Python float truthiness). -/
def EnergyStorageSystem.charge (s : EnergyStorageSystem) (p_in_kw dt_hr : ℚ) :
    Except String (EnergyStorageSystem × (ℚ × ℚ × BStatus)) :=
  if dt_hr ≤ 0 then Except.error "Δt must be positive (hours)"
  else if s.soc_max ≤ s.soc then
    let s1 : EnergyStorageSystem := { s with status := BStatus.chargeRejectedFull }
    Except.ok (s1, (roundTo 2 s1.soc, roundTo 2 s1.energy_kwh, s1.status))
  else
    let dE0 := p_in_kw * s.eta_c * dt_hr
    let dE := min dE0 (s.soc_max * s.E_B - s.energy_kwh)
    let e := s.energy_kwh + dE
    let s1 : EnergyStorageSystem :=
      { s with energy_kwh := e
               soc := e / s.E_B
               status := if dE = 0 then BStatus.idle else BStatus.charging }
    Except.ok (s1, (roundTo 2 s1.soc, roundTo 2 s1.energy_kwh, s1.status))

/-- EnergyStorageSystem.discharge(load_kw, dt_hr): raises ValueError on
dt_hr ≤ 0; rejects when soc ≤ soc_min; otherwise withdraws
min(load/η_BD·dt, energy − soc_min·E_B) and returns the rounded snapshot. -/
def EnergyStorageSystem.discharge (s : EnergyStorageSystem) (load_kw dt_hr : ℚ) :
    Except String (EnergyStorageSystem × (ℚ × ℚ × BStatus)) :=
  if dt_hr ≤ 0 then Except.error "Δt must be positive (hours)"
  else if s.soc ≤ s.soc_min then
    let s1 : EnergyStorageSystem := { s with status := BStatus.dischargeRejectedLow }
    Except.ok (s1, (roundTo 2 s1.soc, roundTo 2 s1.energy_kwh, s1.status))
  else
    let dE0 := load_kw / s.eta_d * dt_hr
    let dE := min dE0 (s.energy_kwh - s.soc_min * s.E_B)
    let e := s.energy_kwh - dE
    let s1 : EnergyStorageSystem :=
      { s with energy_kwh := e
               soc := e / s.E_B
               status := if dE = 0 then BStatus.idle else BStatus.discharging }
    Except.ok (s1, (roundTo 2 s1.soc, roundTo 2 s1.energy_kwh, s1.status))

/-- EnergyStorageSystem.observe(): the last status, no state change. -/
def EnergyStorageSystem.observe (s : EnergyStorageSystem) : BStatus := s.status

/-- One operation request on the battery bank. -/
inductive BOp where
  | charge (power_kw dt_hr : ℚ)
  | discharge (power_kw dt_hr : ℚ)

/-- A valid call: non-negative power, positive time step. -/
def BOp.valid : BOp → Prop
  | BOp.charge p dt => 0 ≤ p ∧ 0 < dt
  | BOp.discharge p dt => 0 ≤ p ∧ 0 < dt

instance : DecidablePred BOp.valid := by
  intro op
  cases op <;> simp only [BOp.valid] <;> infer_instance

/-- State after one operation; a raised ValueError leaves the state
unchanged (the Python methods raise before any mutation). -/
def EnergyStorageSystem.step (s : EnergyStorageSystem) (op : BOp) :
    EnergyStorageSystem :=
  match op with
  | BOp.charge p dt =>
    match s.charge p dt with
    | Except.ok (s1, _) => s1
    | Except.error _ => s
  | BOp.discharge p dt =>
    match s.discharge p dt with
    | Except.ok (s1, _) => s1
    | Except.error _ => s

/-- State after a sequence of operations. -/
def EnergyStorageSystem.run (s : EnergyStorageSystem) (ops : List BOp) :
    EnergyStorageSystem :=
  ops.foldl EnergyStorageSystem.step s

/-- Well-formed battery configuration: positive nominal capacity,
non-negative charge efficiency, positive discharge efficiency (the data
model specifies efficiencies as fractions in (0,1] and positive
capacity). -/
def EnergyStorageSystem.goodConfig (s : EnergyStorageSystem) : Prop :=
  0 < s.E_B ∧ 0 ≤ s.eta_c ∧ 0 < s.eta_d

/-- The battery band invariant: stored energy within
[socMin·E_B, socMax·E_B], with the SoC field consistent with the stored
energy (the code recomputes soc = energy/E_B on every mutation). -/
def EnergyStorageSystem.inBand (s : EnergyStorageSystem) : Prop :=
  s.soc_min * s.E_B ≤ s.energy_kwh ∧ s.energy_kwh ≤ s.soc_max * s.E_B ∧
  s.soc = s.energy_kwh / s.E_B

/-! ## General lemmas -/

/-- Evaluation rule for roundTo: if n is the integer nearest x·10^d
(round half up), then roundTo d x = n / 10^d. -/
lemma roundTo_eq_of (d : ℕ) (x : ℚ) (n : ℤ)
    (h1 : (n : ℚ) ≤ x * 10 ^ d + 1 / 2) (h2 : x * 10 ^ d + 1 / 2 < n + 1) :
    roundTo d x = (n : ℚ) / 10 ^ d := by
  unfold roundTo
  rw [round_eq]
  have hfl : ⌊x * 10 ^ d + 1 / 2⌋ = n := by
    rw [Int.floor_eq_iff]
    exact ⟨h1, h2⟩
  rw [hfl]

/-- The temperature update leaves the stored mass unchanged. -/
@[simp] lemma HFS.update_temperature_h2 (s : HFS) (a : TempAction) (p m dt : ℚ) :
    (s.update_temperature a p m dt).h2_kg = s.h2_kg := rfl

/-- The temperature update leaves the pressure unchanged. -/
@[simp] lemma HFS.update_temperature_pressure (s : HFS) (a : TempAction) (p m dt : ℚ) :
    (s.update_temperature a p m dt).pressure_bar = s.pressure_bar := rfl

/-- The pressure update leaves the stored mass unchanged. -/
@[simp] lemma HFS.update_pressure_h2 (s : HFS) :
    s.update_pressure.h2_kg = s.h2_kg := rfl

/-- The pressure update leaves the temperature unchanged. -/
@[simp] lemma HFS.update_pressure_temperature (s : HFS) :
    s.update_pressure.temperature_c = s.temperature_c := rfl

/-- After HFS._update_pressure the stored pressure is exactly the rounded
ideal-gas pressure of the stored mass and temperature. -/
lemma HFS.update_pressure_consistent (s : HFS) : pressureConsistent s.update_pressure := rfl

/-- Main (non-rejected, non-clamped) charging branch: the storable energy
p·η_BC·dt fits under the SoC ceiling and is added in full. -/
lemma EnergyStorageSystem.step_charge_main (s : EnergyStorageSystem) (p t : ℚ)
    (ht : 0 < t) (hfull : s.soc < s.soc_max)
    (hclamp : p * s.eta_c * t ≤ s.soc_max * s.E_B - s.energy_kwh) :
    s.step (BOp.charge p t) =
      { s with energy_kwh := s.energy_kwh + p * s.eta_c * t,
               soc := (s.energy_kwh + p * s.eta_c * t) / s.E_B,
               status := if p * s.eta_c * t = 0 then BStatus.idle else BStatus.charging } := by
  simp only [EnergyStorageSystem.step]
  unfold EnergyStorageSystem.charge
  rw [if_neg (not_le.mpr ht), if_neg (not_le.mpr hfull)]
  simp only [min_eq_left hclamp]

/-- Main (non-rejected, non-clamped) discharging branch: the withdrawal
p/η_BD·dt stays above the SoC floor and is taken in full. -/
lemma EnergyStorageSystem.step_discharge_main (s : EnergyStorageSystem) (p t : ℚ)
    (ht : 0 < t) (hlow : s.soc_min < s.soc)
    (hclamp : p / s.eta_d * t ≤ s.energy_kwh - s.soc_min * s.E_B) :
    s.step (BOp.discharge p t) =
      { s with energy_kwh := s.energy_kwh - p / s.eta_d * t,
               soc := (s.energy_kwh - p / s.eta_d * t) / s.E_B,
               status := if p / s.eta_d * t = 0 then BStatus.idle else BStatus.discharging } := by
  simp only [EnergyStorageSystem.step]
  unfold EnergyStorageSystem.discharge
  rw [if_neg (not_le.mpr ht), if_neg (not_le.mpr hlow)]
  simp only [min_eq_left hclamp]

/-- One valid hydrogen operation preserves the mass bounds
0 ≤ mass ≤ tankCapacity: produce adds a non-negative amount clamped above
at the capacity, consume removes a non-negative amount clamped below at 0,
and the safety-gate branches and idle leave the mass unchanged. -/
lemma HFS.step_mass_bounds (s : HFS) (op : HOp) (hv : op.valid)
    (h0 : 0 ≤ s.h2_kg) (h1 : s.h2_kg ≤ tank_capacity_kg) :
    0 ≤ (s.step op).h2_kg ∧ (s.step op).h2_kg ≤ tank_capacity_kg := by
  cases op with
  | produce p dt =>
    obtain ⟨hp, hdt⟩ := hv
    show 0 ≤ (s.produce p dt).1.h2_kg ∧ (s.produce p dt).1.h2_kg ≤ tank_capacity_kg
    unfold HFS.produce
    by_cases hT : 45 < s.temperature_c
    · rw [if_pos hT]
      exact ⟨h0, h1⟩
    rw [if_neg hT]
    by_cases hP : nominal_pressure_bar < s.pressure_bar
    · rw [if_pos hP]
      exact ⟨h0, h1⟩
    rw [if_neg hP]
    have hδ : 0 ≤ min p electrolyzer_max_kw * electrolyzer_efficiency /
        h2_energy_kwh_per_kg * dt := by
      have hminp : 0 ≤ min p electrolyzer_max_kw :=
        le_min hp (by norm_num [electrolyzer_max_kw])
      exact mul_nonneg (div_nonneg
        (mul_nonneg hminp (by norm_num [electrolyzer_efficiency]))
        (by norm_num [h2_energy_kwh_per_kg])) hdt.le
    by_cases hF : tank_capacity_kg <
        s.h2_kg + min p electrolyzer_max_kw * electrolyzer_efficiency /
          h2_energy_kwh_per_kg * dt
    · simp only [if_pos hF, HFS.update_pressure_h2, HFS.update_temperature_h2]
      norm_num [tank_capacity_kg]
    · simp only [if_neg hF, HFS.update_pressure_h2, HFS.update_temperature_h2]
      exact ⟨add_nonneg h0 hδ, not_lt.mp hF⟩
  | consume p dt =>
    obtain ⟨hp, hdt⟩ := hv
    show 0 ≤ (s.consume p dt).1.h2_kg ∧ (s.consume p dt).1.h2_kg ≤ tank_capacity_kg
    unfold HFS.consume
    by_cases hT : 45 < s.temperature_c
    · rw [if_pos hT]
      exact ⟨h0, h1⟩
    rw [if_neg hT]
    have hδ : 0 ≤ min p fuelcell_max_kw /
        (fuelcell_efficiency * h2_energy_kwh_per_kg) * dt := by
      have hminp : 0 ≤ min p fuelcell_max_kw :=
        le_min hp (by norm_num [fuelcell_max_kw])
      exact mul_nonneg (div_nonneg hminp
        (by norm_num [fuelcell_efficiency, h2_energy_kwh_per_kg])) hdt.le
    by_cases hE : s.h2_kg - min p fuelcell_max_kw /
        (fuelcell_efficiency * h2_energy_kwh_per_kg) * dt < 0
    · simp only [if_pos hE, HFS.update_pressure_h2, HFS.update_temperature_h2]
      norm_num [tank_capacity_kg]
    · simp only [if_neg hE, HFS.update_pressure_h2, HFS.update_temperature_h2]
      constructor
      · exact not_lt.mp hE
      · linarith
  | idle dt =>
    exact ⟨h0, h1⟩

/-- The mass bounds are preserved along any sequence of valid hydrogen
operations. -/
lemma HFS.run_mass_bounds (ops : List HOp) : ∀ s : HFS,
    (∀ op ∈ ops, op.valid) → 0 ≤ s.h2_kg → s.h2_kg ≤ tank_capacity_kg →
    0 ≤ (s.run ops).h2_kg ∧ (s.run ops).h2_kg ≤ tank_capacity_kg := by
  induction ops with
  | nil =>
    intro s _ h0 h1
    exact ⟨h0, h1⟩
  | cons op ops ih =>
    intro s hv h0 h1
    have hstep := HFS.step_mass_bounds s op (hv op (List.mem_cons_self op ops)) h0 h1
    exact ih (s.step op) (fun o ho => hv o (List.mem_cons_of_mem op ho)) hstep.1 hstep.2

/-- Every battery operation leaves the configuration fields (capacity,
SoC window, efficiencies) unchanged. -/
lemma EnergyStorageSystem.step_config (s : EnergyStorageSystem) (op : BOp) :
    (s.step op).E_B = s.E_B ∧ (s.step op).soc_min = s.soc_min ∧
    (s.step op).soc_max = s.soc_max ∧ (s.step op).eta_c = s.eta_c ∧
    (s.step op).eta_d = s.eta_d := by
  cases op with
  | charge p dt =>
    simp only [EnergyStorageSystem.step]
    unfold EnergyStorageSystem.charge
    by_cases h1 : dt ≤ 0
    · rw [if_pos h1]
      exact ⟨rfl, rfl, rfl, rfl, rfl⟩
    rw [if_neg h1]
    by_cases h2 : s.soc_max ≤ s.soc
    · rw [if_pos h2]
      exact ⟨rfl, rfl, rfl, rfl, rfl⟩
    · rw [if_neg h2]
      exact ⟨rfl, rfl, rfl, rfl, rfl⟩
  | discharge p dt =>
    simp only [EnergyStorageSystem.step]
    unfold EnergyStorageSystem.discharge
    by_cases h1 : dt ≤ 0
    · rw [if_pos h1]
      exact ⟨rfl, rfl, rfl, rfl, rfl⟩
    rw [if_neg h1]
    by_cases h2 : s.soc ≤ s.soc_min
    · rw [if_pos h2]
      exact ⟨rfl, rfl, rfl, rfl, rfl⟩
    · rw [if_neg h2]
      exact ⟨rfl, rfl, rfl, rfl, rfl⟩

/-- One valid battery operation preserves the band invariant: the rejection
guards plus the min-clamps keep the stored energy inside
[socMin·E_B, socMax·E_B]. -/
lemma EnergyStorageSystem.step_inBand (s : EnergyStorageSystem) (op : BOp)
    (hv : op.valid) (hEB : 0 < s.E_B) (hec : 0 ≤ s.eta_c) (hed : 0 < s.eta_d)
    (hb : s.inBand) : (s.step op).inBand := by
  obtain ⟨hlo, hhi, hsoc⟩ := hb
  cases op with
  | charge p dt =>
    obtain ⟨hp, hdt⟩ := hv
    simp only [EnergyStorageSystem.step]
    unfold EnergyStorageSystem.charge
    rw [if_neg (not_le.mpr hdt)]
    by_cases h2 : s.soc_max ≤ s.soc
    · rw [if_pos h2]
      exact ⟨hlo, hhi, hsoc⟩
    · rw [if_neg h2]
      have hslt : s.energy_kwh < s.soc_max * s.E_B := by
        have h3 : s.energy_kwh / s.E_B < s.soc_max := by
          rw [← hsoc]
          exact not_le.mp h2
        exact (div_lt_iff₀ hEB).mp h3
      have hd0 : 0 ≤ p * s.eta_c * dt := mul_nonneg (mul_nonneg hp hec) hdt.le
      have hdEnn : 0 ≤ min (p * s.eta_c * dt) (s.soc_max * s.E_B - s.energy_kwh) :=
        le_min hd0 (by linarith)
      have hdEle : min (p * s.eta_c * dt) (s.soc_max * s.E_B - s.energy_kwh) ≤
          s.soc_max * s.E_B - s.energy_kwh := min_le_right _ _
      refine ⟨?_, ?_, ?_⟩
      · show s.soc_min * s.E_B ≤
          s.energy_kwh + min (p * s.eta_c * dt) (s.soc_max * s.E_B - s.energy_kwh)
        linarith
      · show s.energy_kwh + min (p * s.eta_c * dt) (s.soc_max * s.E_B - s.energy_kwh) ≤
          s.soc_max * s.E_B
        linarith
      · rfl
  | discharge p dt =>
    obtain ⟨hp, hdt⟩ := hv
    simp only [EnergyStorageSystem.step]
    unfold EnergyStorageSystem.discharge
    rw [if_neg (not_le.mpr hdt)]
    by_cases h2 : s.soc ≤ s.soc_min
    · rw [if_pos h2]
      exact ⟨hlo, hhi, hsoc⟩
    · rw [if_neg h2]
      have hsgt : s.soc_min * s.E_B < s.energy_kwh := by
        have h3 : s.soc_min < s.energy_kwh / s.E_B := by
          rw [← hsoc]
          exact not_le.mp h2
        exact (lt_div_iff₀ hEB).mp h3
      have hd0 : 0 ≤ p / s.eta_d * dt := mul_nonneg (div_nonneg hp hed.le) hdt.le
      have hdEnn : 0 ≤ min (p / s.eta_d * dt) (s.energy_kwh - s.soc_min * s.E_B) :=
        le_min hd0 (by linarith)
      have hdEle : min (p / s.eta_d * dt) (s.energy_kwh - s.soc_min * s.E_B) ≤
          s.energy_kwh - s.soc_min * s.E_B := min_le_right _ _
      refine ⟨?_, ?_, ?_⟩
      · show s.soc_min * s.E_B ≤
          s.energy_kwh - min (p / s.eta_d * dt) (s.energy_kwh - s.soc_min * s.E_B)
        linarith
      · show s.energy_kwh - min (p / s.eta_d * dt) (s.energy_kwh - s.soc_min * s.E_B) ≤
          s.soc_max * s.E_B
        linarith
      · rfl

/-- A run of battery operations leaves the configuration fields
unchanged. -/
lemma EnergyStorageSystem.run_config (ops : List BOp) : ∀ s : EnergyStorageSystem,
    (s.run ops).E_B = s.E_B ∧ (s.run ops).soc_min = s.soc_min ∧
    (s.run ops).soc_max = s.soc_max ∧ (s.run ops).eta_c = s.eta_c ∧
    (s.run ops).eta_d = s.eta_d := by
  induction ops with
  | nil =>
    intro s
    exact ⟨rfl, rfl, rfl, rfl, rfl⟩
  | cons op ops ih =>
    intro s
    have h1 := s.step_config op
    have h2 := ih (s.step op)
    exact ⟨h2.1.trans h1.1, h2.2.1.trans h1.2.1, h2.2.2.1.trans h1.2.2.1,
      h2.2.2.2.1.trans h1.2.2.2.1, h2.2.2.2.2.trans h1.2.2.2.2⟩

/-- The band invariant is preserved along any sequence of valid battery
operations from a well-configured bank. -/
lemma EnergyStorageSystem.run_inBand (ops : List BOp) : ∀ s : EnergyStorageSystem,
    (∀ op ∈ ops, op.valid) → s.goodConfig → s.inBand → (s.run ops).inBand := by
  induction ops with
  | nil =>
    intro s _ _ hb
    exact hb
  | cons op ops ih =>
    intro s hv hg hb
    have hb1 := s.step_inBand op (hv op (List.mem_cons_self op ops)) hg.1 hg.2.1 hg.2.2 hb
    have hcfg := s.step_config op
    have hg1 : (s.step op).goodConfig :=
      ⟨by rw [hcfg.1]; exact hg.1, by rw [hcfg.2.2.2.1]; exact hg.2.1,
        by rw [hcfg.2.2.2.2]; exact hg.2.2⟩
    exact ih (s.step op) (fun o ho => hv o (List.mem_cons_of_mem op ho)) hg1 hb1

/-- Rounded state of charge of the C9 discharge scenario. -/
lemma roundTo_soc_scenario : roundTo 2 ((9163 : ℚ) / 12288) = 0.75 := by
  rw [roundTo_eq_of 2 _ 75 (by norm_num) (by norm_num)]
  norm_num

/-- Rounded stored energy of the C9 discharge scenario. -/
lemma roundTo_energy_scenario : roundTo 2 ((9163 : ℚ) / 60) = 152.72 := by
  rw [roundTo_eq_of 2 _ 15272 (by norm_num) (by norm_num)]
  norm_num

/-- Rounded mass of the C7 produce scenario. -/
lemma roundTo_mass_produce_scenario : roundTo 2 ((8599 : ℚ) / 197) = 43.65 := by
  rw [roundTo_eq_of 2 _ 4365 (by norm_num) (by norm_num)]
  norm_num

/-- Rounded fill percentage of the C7 produce scenario. -/
lemma roundTo_sof_produce_scenario : roundTo 1 ((17198 : ℚ) / 591) = 29.1 := by
  rw [roundTo_eq_of 1 _ 291 (by norm_num) (by norm_num)]
  norm_num

/-! ## Claim theorems -/

/-- C9: from the battery bank built with stacks=16, autonomy_days=1,
unit_kwh=12.8 (so E_B = 204.8 kWh), socMin=0.2, socMax=0.9, efficiencies
0.96 and initial SoC 1.0, discharge(50 kW, 1 h) withdraws 50/0.96 = 625/12
≈ 52.08 kWh, leaving exactly 9163/60 kWh, and returns SoC 0.75 and stored
energy 152.72 kWh (each rounded to 2 decimals) with the discharging
status. -/
theorem c9_discharge_scenario :
    (EnergyStorageSystem.init 16 1 12.8 0.96 0.96 0.2 0.9 1).discharge 50 1 =
      Except.ok ({ «stacks» := 16, autonomy_days := 1, unit_kwh := 12.8,
                   eta_c := 0.96, eta_d := 0.96, soc_min := 0.2, soc_max := 0.9,
                   soc := 9163 / 12288, status := BStatus.discharging,
                   energy_kwh := 9163 / 60, E_B := 204.8 },
        (0.75, 152.72, BStatus.discharging)) := by
  unfold EnergyStorageSystem.discharge EnergyStorageSystem.init
  norm_num [min_def, roundTo_soc_scenario, roundTo_energy_scenario]

/-- C1 (amended): when the over-pressure gate fires (pressure above
nominalPressure, no overheat), produce performs the vent action: the
pressure field is reset directly to the constant 314 bar, the stored mass
and the temperature are unchanged (in particular no hydrogen is produced),
and the venting status is reported. -/
theorem c1_vent_resets_pressure (s : HFS) (p dt : ℚ)
    (ht : s.temperature_c ≤ 45) (hp : nominal_pressure_bar < s.pressure_bar) :
    (s.produce p dt).1.h2_kg = s.h2_kg ∧
    (s.produce p dt).1.temperature_c = s.temperature_c ∧
    (s.produce p dt).1.pressure_bar = 314 ∧
    (s.produce p dt).2.status = ⟨StatusBase.pausedVenting, false, false⟩ := by
  unfold HFS.produce
  rw [if_neg (not_lt.mpr ht), if_pos hp]
  exact ⟨rfl, rfl, rfl, rfl⟩

/-- C1 witness: the vent branch at the concrete state (42 kg, 25 °C,
700 bar) with produce(50 kW, 1 h). -/
theorem c1_vent_witness :
    ((HFS.init 28 25 700).produce 50 1).1.h2_kg = (HFS.init 28 25 700).h2_kg ∧
    ((HFS.init 28 25 700).produce 50 1).1.temperature_c = (HFS.init 28 25 700).temperature_c ∧
    ((HFS.init 28 25 700).produce 50 1).1.pressure_bar = 314 ∧
    ((HFS.init 28 25 700).produce 50 1).2.status = ⟨StatusBase.pausedVenting, false, false⟩ :=
  c1_vent_resets_pressure (HFS.init 28 25 700) 50 1
    (by norm_num [HFS.init]) (by norm_num [HFS.init, nominal_pressure_bar])

/-- C1 counterexample: at the state (42 kg, 25 °C, 700 bar) — over-pressure,
no overheat — produce(50 kW, 1 h) takes the venting branch, but the stored
hydrogen mass is NOT reduced: it stays exactly 42 kg, refuting the claim
that venting reduces the stored mass back toward the startup pressure
setpoint. -/
theorem c1_vent_counterexample :
    nominal_pressure_bar < (HFS.init 28 25 700).pressure_bar ∧
    (HFS.init 28 25 700).temperature_c ≤ 45 ∧
    ((HFS.init 28 25 700).produce 50 1).2.status.base = StatusBase.pausedVenting ∧
    ((HFS.init 28 25 700).produce 50 1).1.h2_kg = 42 ∧
    ¬ ((HFS.init 28 25 700).produce 50 1).1.h2_kg < (HFS.init 28 25 700).h2_kg := by
  refine ⟨by norm_num [HFS.init, nominal_pressure_bar], by norm_num [HFS.init], ?_, ?_, ?_⟩ <;>
    norm_num [HFS.produce, HFS.init, HFS.report, nominal_pressure_bar, tank_capacity_kg]

/-- C6 (amended): when the overheat gate fires (temperature above 45 °C)
produce performs a forced idle cool-down: mass and pressure are unchanged,
the temperature becomes max(0, T − 0.5·dt) — the cool-down rate applied for
dt, clamped below at 0 — which is a strict decrease for dt > 0, and the
cooling status is reported. -/
theorem c6_overheat_forces_cooldown (s : HFS) (p dt : ℚ)
    (ht : 45 < s.temperature_c) (hdt : 0 < dt) :
    (s.produce p dt).1.h2_kg = s.h2_kg ∧
    (s.produce p dt).1.pressure_bar = s.pressure_bar ∧
    (s.produce p dt).1.temperature_c = max 0 (s.temperature_c - beta_cooldown * dt) ∧
    (s.produce p dt).1.temperature_c < s.temperature_c ∧
    (s.produce p dt).2.status = ⟨StatusBase.pausedCooling, false, false⟩ := by
  unfold HFS.produce
  rw [if_pos ht]
  refine ⟨rfl, rfl, rfl, ?_, rfl⟩
  show max 0 (s.temperature_c - beta_cooldown * dt) < s.temperature_c
  have hb : beta_cooldown = 0.5 := rfl
  apply max_lt (by linarith) (by rw [hb]; linarith)

/-- C6 witness: the cool-down branch at the concrete state (42 kg, 46 °C,
314 bar) with produce(50 kW, 1 h). -/
theorem c6_overheat_witness :
    ((HFS.init 28 46 314).produce 50 1).1.h2_kg = (HFS.init 28 46 314).h2_kg ∧
    ((HFS.init 28 46 314).produce 50 1).1.pressure_bar = (HFS.init 28 46 314).pressure_bar ∧
    ((HFS.init 28 46 314).produce 50 1).1.temperature_c =
      max 0 ((HFS.init 28 46 314).temperature_c - beta_cooldown * 1) ∧
    ((HFS.init 28 46 314).produce 50 1).1.temperature_c < (HFS.init 28 46 314).temperature_c ∧
    ((HFS.init 28 46 314).produce 50 1).2.status = ⟨StatusBase.pausedCooling, false, false⟩ :=
  c6_overheat_forces_cooldown (HFS.init 28 46 314) 50 1 (by norm_num [HFS.init]) (by norm_num)

/-- C2 (amended): after every idle call, and after every produce call
admitted by both safety gates and every consume call admitted by the
overheat gate, the stored (and reported) pressure is exactly the ideal-gas
pressure recomputed from the resulting mass and temperature, rounded to one
decimal.  (Calls redirected by a safety gate do not recompute pressure; see
the counterexample.) -/
theorem c2_pressure_consistency (s : HFS) (op : HOp) (hg : gatesPass s op) :
    pressureConsistent (s.step op) := by
  cases op with
  | produce p dt =>
    obtain ⟨ht, hp⟩ := hg
    show pressureConsistent (s.produce p dt).1
    unfold HFS.produce
    rw [if_neg (not_lt.mpr ht), if_neg (not_lt.mpr hp)]
    exact HFS.update_pressure_consistent _
  | consume p dt =>
    have ht : s.temperature_c ≤ 45 := hg
    show pressureConsistent (s.consume p dt).1
    unfold HFS.consume
    rw [if_neg (not_lt.mpr ht)]
    exact HFS.update_pressure_consistent _
  | idle dt =>
    exact HFS.update_pressure_consistent _

/-- C2 witness: pressure consistency after idle(1 h) from (42 kg, 25 °C,
314 bar). -/
theorem c2_pressure_witness :
    gatesPass (HFS.init 28 25 314) (HOp.idle 1) ∧
    pressureConsistent ((HFS.init 28 25 314).step (HOp.idle 1)) :=
  ⟨trivial, c2_pressure_consistency (HFS.init 28 25 314) (HOp.idle 1) trivial⟩

/-- C2 counterexample: from (42 kg, 46 °C, 314 bar) the produce call is
redirected to the cooling branch, which changes the temperature to 45.5 °C
without recomputing pressure: the reported pressure stays 314 bar while the
ideal-gas formula at the resulting state gives 245.3 bar. -/
theorem c2_pressure_counterexample :
    ¬ pressureConsistent ((HFS.init 28 46 314).produce 50 1).1 := by
  have hstate : ((HFS.init 28 46 314).produce 50 1).1 =
      { h2_kg := 42, temperature_c := 45.5, pressure_bar := 314 } := by
    norm_num [HFS.produce, HFS.init, HFS.update_temperature, beta_cooldown, max_def,
      tank_capacity_kg]
  have hround : roundTo 1 (idealGasPressure 42 (91 / 2)) = 2453 / 10 := by
    rw [roundTo_eq_of 1 _ 2453
      (by norm_num [idealGasPressure, molar_mass_h2, gas_constant_R, tank_volume_liters])
      (by norm_num [idealGasPressure, molar_mass_h2, gas_constant_R, tank_volume_liters])]
    norm_num
  intro h
  rw [hstate] at h
  unfold pressureConsistent at h
  norm_num [hround] at h

/-- C4 (amended): the battery model fails fast: charge and discharge with
dt ≤ 0 return the ValueError and leave the state unchanged.  The hydrogen
model performs no time-step validation: produce with dt = −1 returns
normally and mutates the stored mass (42 kg becomes 16223/394 ≈ 41.18 kg). -/
theorem c4_dt_validation (s : EnergyStorageSystem) (p q dt : ℚ) (hdt : dt ≤ 0) :
    s.charge p dt = Except.error "Δt must be positive (hours)" ∧
    s.discharge q dt = Except.error "Δt must be positive (hours)" ∧
    s.step (BOp.charge p dt) = s ∧
    s.step (BOp.discharge q dt) = s ∧
    ((HFS.init 28 25 314).produce 50 (-1)).1.h2_kg = 16223 / 394 ∧
    (HFS.init 28 25 314).h2_kg = 42 := by
  have hc : s.charge p dt = Except.error "Δt must be positive (hours)" := by
    unfold EnergyStorageSystem.charge
    rw [if_pos hdt]
  have hd : s.discharge q dt = Except.error "Δt must be positive (hours)" := by
    unfold EnergyStorageSystem.discharge
    rw [if_pos hdt]
  refine ⟨hc, hd, ?_, ?_, ?_, by norm_num [HFS.init, tank_capacity_kg]⟩
  · simp only [EnergyStorageSystem.step]
    rw [hc]
  · simp only [EnergyStorageSystem.step]
    rw [hd]
  · norm_num [HFS.produce, HFS.init, min_def, max_def, tank_capacity_kg,
      electrolyzer_max_kw, electrolyzer_efficiency, h2_energy_kwh_per_kg,
      nominal_pressure_bar]

/-- C4 witness: the battery half at the default bank with dt = 0 and the
concrete hydrogen half. -/
theorem c4_dt_validation_witness :
    EnergyStorageSystem.default.charge 10 0 = Except.error "Δt must be positive (hours)" ∧
    EnergyStorageSystem.default.discharge 10 0 = Except.error "Δt must be positive (hours)" ∧
    EnergyStorageSystem.default.step (BOp.charge 10 0) = EnergyStorageSystem.default ∧
    EnergyStorageSystem.default.step (BOp.discharge 10 0) = EnergyStorageSystem.default ∧
    ((HFS.init 28 25 314).produce 50 (-1)).1.h2_kg = 16223 / 394 ∧
    (HFS.init 28 25 314).h2_kg = 42 :=
  c4_dt_validation EnergyStorageSystem.default 10 10 0 (by norm_num)

/-- C4 counterexample: HFS.produce accepts dt = −1 without any
InvalidArgument-style failure and changes the state: the stored mass moves
off its prior value, refuting the claim that every operation of both
models fails fast on dt ≤ 0 with no state mutation. -/
theorem c4_counterexample :
    ((HFS.init 28 25 314).produce 50 (-1)).1.h2_kg ≠ (HFS.init 28 25 314).h2_kg := by
  norm_num [HFS.produce, HFS.init, min_def, max_def, tank_capacity_kg,
    electrolyzer_max_kw, electrolyzer_efficiency, h2_energy_kwh_per_kg,
    nominal_pressure_bar]

/-- C7: when both safety gates pass and the requested power exceeds
electrolyzerMaxPower, produce yields exactly the same resulting state (and
hence the same mass delta) as produce at exactly electrolyzerMaxPower, and
the status reports the limiting; concretely, from 42 kg stored at 25 °C,
produce(120 kW, 1 h) yields reported mass 43.65 kg and fill 29.1 %. -/
theorem c7_power_clamp (s : HFS) (p dt : ℚ) (ht : s.temperature_c ≤ 45)
    (hpr : s.pressure_bar ≤ nominal_pressure_bar) (hp : electrolyzer_max_kw < p) :
    (s.produce p dt).1 = (s.produce electrolyzer_max_kw dt).1 ∧
    (s.produce p dt).2.status.base = StatusBase.limitedElectrolyzer ∧
    ((HFS.init 28 25 314).produce 120 1).2.h2_kg = 43.65 ∧
    ((HFS.init 28 25 314).produce 120 1).2.sof_percent = 29.1 := by
  refine ⟨?_, ?_, ?_, ?_⟩
  · unfold HFS.produce
    rw [if_neg (not_lt.mpr ht), if_neg (not_lt.mpr hpr),
      if_neg (not_lt.mpr ht), if_neg (not_lt.mpr hpr)]
    rw [min_eq_right hp.le, min_self]
  · unfold HFS.produce
    rw [if_neg (not_lt.mpr ht), if_neg (not_lt.mpr hpr), if_pos hp]
    rfl
  · norm_num [HFS.produce, HFS.init, HFS.report, min_def, max_def, tank_capacity_kg,
      electrolyzer_max_kw, electrolyzer_efficiency, h2_energy_kwh_per_kg,
      nominal_pressure_bar, roundTo_mass_produce_scenario]
  · norm_num [HFS.produce, HFS.init, HFS.report, min_def, max_def, tank_capacity_kg,
      electrolyzer_max_kw, electrolyzer_efficiency, h2_energy_kwh_per_kg,
      nominal_pressure_bar, roundTo_sof_produce_scenario]

/-- C7 witness: the clamp at the scenario state (42 kg, 25 °C, 314 bar)
with produce(120 kW, 1 h) against produce(100 kW, 1 h). -/
theorem c7_power_clamp_witness :
    ((HFS.init 28 25 314).produce 120 1).1 =
      ((HFS.init 28 25 314).produce electrolyzer_max_kw 1).1 ∧
    ((HFS.init 28 25 314).produce 120 1).2.status.base = StatusBase.limitedElectrolyzer ∧
    ((HFS.init 28 25 314).produce 120 1).2.h2_kg = 43.65 ∧
    ((HFS.init 28 25 314).produce 120 1).2.sof_percent = 29.1 :=
  c7_power_clamp (HFS.init 28 25 314) 120 1 (by norm_num [HFS.init])
    (by norm_num [HFS.init, nominal_pressure_bar])
    (by norm_num [electrolyzer_max_kw])

/-- C10: consuming from an empty tank (mass 0, no overheat, valid inputs)
keeps the mass at 0 and reports the tank-empty status, yet still raises the
temperature by consumption-heat-rate × (min(P, fuelCellMaxPower)/fuelCellMaxPower) × dt,
exactly as if hydrogen had been consumed. -/
theorem c10_consume_empty_tank (s : HFS) (p dt : ℚ)
    (hm : s.h2_kg = 0) (ht : s.temperature_c ≤ 45) (ht0 : 0 ≤ s.temperature_c)
    (hp : 0 < p) (hdt : 0 < dt) :
    (s.consume p dt).1.h2_kg = 0 ∧
    (s.consume p dt).2.status.tankEmpty = true ∧
    (s.consume p dt).1.temperature_c =
      s.temperature_c + alpha_cons * (min p fuelcell_max_kw / fuelcell_max_kw) * dt ∧
    s.temperature_c < (s.consume p dt).1.temperature_c := by
  have hmin : 0 < min p fuelcell_max_kw := lt_min hp (by norm_num [fuelcell_max_kw])
  have hmlt : s.h2_kg - min p fuelcell_max_kw / (fuelcell_efficiency * h2_energy_kwh_per_kg) * dt < 0 := by
    have hneed : (0:ℚ) < min p fuelcell_max_kw / (fuelcell_efficiency * h2_energy_kwh_per_kg) * dt :=
      mul_pos (div_pos hmin (by norm_num [fuelcell_efficiency, h2_energy_kwh_per_kg])) hdt
    rw [hm]
    linarith
  have hdelta : 0 < alpha_cons * (min p fuelcell_max_kw / fuelcell_max_kw) * dt :=
    mul_pos (mul_pos (by norm_num [alpha_cons])
      (div_pos hmin (by norm_num [fuelcell_max_kw]))) hdt
  unfold HFS.consume
  rw [if_neg (not_lt.mpr ht)]
  have htmp : (max 0 (s.temperature_c + alpha_cons * (min p fuelcell_max_kw / fuelcell_max_kw) * dt)) =
      s.temperature_c + alpha_cons * (min p fuelcell_max_kw / fuelcell_max_kw) * dt :=
    max_eq_right (by linarith)
  refine ⟨?_, ?_, ?_, ?_⟩
  · simp only [if_pos hmlt, HFS.update_pressure_h2, HFS.update_temperature_h2]
  · simp only [if_pos hmlt]
    rfl
  · simp only [if_pos hmlt, HFS.update_temperature, HFS.update_pressure]
    exact htmp
  · simp only [if_pos hmlt, HFS.update_temperature, HFS.update_pressure]
    rw [htmp]
    linarith

/-- C10 witness: consume(10 kW, 1 h) from the empty tank at 25 °C. -/
theorem c10_consume_empty_tank_witness :
    ((HFS.init 0 25 314).consume 10 1).1.h2_kg = 0 ∧
    ((HFS.init 0 25 314).consume 10 1).2.status.tankEmpty = true ∧
    ((HFS.init 0 25 314).consume 10 1).1.temperature_c =
      (HFS.init 0 25 314).temperature_c +
        alpha_cons * (min 10 fuelcell_max_kw / fuelcell_max_kw) * 1 ∧
    (HFS.init 0 25 314).temperature_c < ((HFS.init 0 25 314).consume 10 1).1.temperature_c :=
  c10_consume_empty_tank (HFS.init 0 25 314) 10 1
    (by norm_num [HFS.init, tank_capacity_kg]) (by norm_num [HFS.init])
    (by norm_num [HFS.init]) (by norm_num) (by norm_num)

/-- C3 (amended): for a bank constructed with positive nominal capacity,
non-negative charge efficiency, positive discharge efficiency and an
INITIAL SoC inside [socMin, socMax], every state reached by a sequence of
valid charge/discharge calls satisfies
socMin·capacityNominal ≤ storedEnergy ≤ socMax·capacityNominal.  (Without
the initial-SoC restriction the claim is false: see the counterexample —
the dataclass default initial SoC is 1.0, above socMax = 0.9.) -/
theorem c3_soc_band_invariant («stacks» a u ec ed smin smax soc0 : ℚ)
    (ops : List BOp) (hEB : 0 < u * «stacks» * a) (hec : 0 ≤ ec) (hed : 0 < ed)
    (h0 : smin ≤ soc0) (h1 : soc0 ≤ smax) (hops : ∀ op ∈ ops, op.valid) :
    smin * (u * «stacks» * a) ≤
      ((EnergyStorageSystem.init «stacks» a u ec ed smin smax soc0).run ops).energy_kwh ∧
    ((EnergyStorageSystem.init «stacks» a u ec ed smin smax soc0).run ops).energy_kwh ≤
      smax * (u * «stacks» * a) := by
  have hg : (EnergyStorageSystem.init «stacks» a u ec ed smin smax soc0).goodConfig :=
    ⟨hEB, hec, hed⟩
  have hb : (EnergyStorageSystem.init «stacks» a u ec ed smin smax soc0).inBand := by
    refine ⟨?_, ?_, ?_⟩
    · show smin * (u * «stacks» * a) ≤ soc0 * (u * «stacks» * a)
      exact mul_le_mul_of_nonneg_right h0 hEB.le
    · show soc0 * (u * «stacks» * a) ≤ smax * (u * «stacks» * a)
      exact mul_le_mul_of_nonneg_right h1 hEB.le
    · show soc0 = soc0 * (u * «stacks» * a) / (u * «stacks» * a)
      exact (mul_div_cancel_right₀ soc0 (ne_of_gt hEB)).symm
  have hband := EnergyStorageSystem.run_inBand ops
    (EnergyStorageSystem.init «stacks» a u ec ed smin smax soc0) hops hg hb
  have hcfg := EnergyStorageSystem.run_config ops
    (EnergyStorageSystem.init «stacks» a u ec ed smin smax soc0)
  constructor
  · have h := hband.1
    rw [hcfg.2.1, hcfg.1] at h
    exact h
  · have h := hband.2.1
    rw [hcfg.2.2.1, hcfg.1] at h
    exact h

/-- C3 witness: a charge then a discharge from the half-charged default-size
bank stays inside the band. -/
theorem c3_soc_band_invariant_witness :
    0.2 * (12.8 * 16 * 3) ≤
      ((EnergyStorageSystem.init 16 3 12.8 0.96 0.96 0.2 0.9 0.5).run
        [BOp.charge 10 1, BOp.discharge 5 1]).energy_kwh ∧
    ((EnergyStorageSystem.init 16 3 12.8 0.96 0.96 0.2 0.9 0.5).run
        [BOp.charge 10 1, BOp.discharge 5 1]).energy_kwh ≤ 0.9 * (12.8 * 16 * 3) :=
  c3_soc_band_invariant 16 3 12.8 0.96 0.96 0.2 0.9 0.5
    [BOp.charge 10 1, BOp.discharge 5 1]
    (by norm_num) (by norm_num) (by norm_num) (by norm_num) (by norm_num)
    (by
      intro op hop
      fin_cases hop <;> norm_num [BOp.valid])

/-- C3 counterexample: the bank constructed with every dataclass default
(initial SoC 1.0) is reachable by the empty sequence yet violates the upper
band bound: stored energy 614.4 kWh exceeds socMax·E_B = 552.96 kWh. -/
theorem c3_counterexample :
    (EnergyStorageSystem.default.run []).energy_kwh = 614.4 ∧
    EnergyStorageSystem.default.soc_max * EnergyStorageSystem.default.E_B = 552.96 ∧
    ¬ ((EnergyStorageSystem.default.run []).energy_kwh ≤
        EnergyStorageSystem.default.soc_max * EnergyStorageSystem.default.E_B) := by
  refine ⟨?_, ?_, ?_⟩ <;>
    norm_num [EnergyStorageSystem.run, EnergyStorageSystem.default,
      EnergyStorageSystem.init]

/-- C5: for a well-configured bank, charging with power P > 0 for t > 0 and
then discharging the same net input energy P·t at the load side, with
neither call rejected or boundary-clamped, leaves strictly less stored
energy than before charging whenever η_BC·η_BD < 1. -/
theorem c5_round_trip_loss (s : EnergyStorageSystem) (P t : ℚ)
    (hP : 0 < P) (ht : 0 < t)
    (hed : 0 < s.eta_d) (hloss : s.eta_c * s.eta_d < 1)
    (hnotfull : s.soc < s.soc_max)
    (hcclamp : P * s.eta_c * t ≤ s.soc_max * s.E_B - s.energy_kwh)
    (hdlow : s.soc_min < (s.energy_kwh + P * s.eta_c * t) / s.E_B)
    (hdclamp : P / s.eta_d * t ≤ s.energy_kwh + P * s.eta_c * t - s.soc_min * s.E_B) :
    ((s.step (BOp.charge P t)).step (BOp.discharge P t)).energy_kwh < s.energy_kwh := by
  rw [s.step_charge_main P t ht hnotfull hcclamp]
  rw [EnergyStorageSystem.step_discharge_main
    { s with energy_kwh := s.energy_kwh + P * s.eta_c * t,
             soc := (s.energy_kwh + P * s.eta_c * t) / s.E_B,
             status := if P * s.eta_c * t = 0 then BStatus.idle else BStatus.charging }
    P t ht hdlow hdclamp]
  show s.energy_kwh + P * s.eta_c * t - P / s.eta_d * t < s.energy_kwh
  have hfrac : s.eta_c < 1 / s.eta_d := by
    rw [lt_div_iff₀ hed]
    exact hloss
  have hkey : P * s.eta_c * t < P / s.eta_d * t := by
    calc P * s.eta_c * t = P * t * s.eta_c := by ring
      _ < P * t * (1 / s.eta_d) := by
          exact mul_lt_mul_of_pos_left hfrac (mul_pos hP ht)
      _ = P / s.eta_d * t := by ring
  linarith

/-- C5 witness: the half-full default-efficiency bank (E_B = 614.4 kWh,
energy 307.2 kWh), charge(10 kW, 1 h) then discharge(10 kW, 1 h). -/
theorem c5_round_trip_loss_witness :
    (((EnergyStorageSystem.init 16 3 12.8 0.96 0.96 0.2 0.9 0.5).step
        (BOp.charge 10 1)).step (BOp.discharge 10 1)).energy_kwh <
      (EnergyStorageSystem.init 16 3 12.8 0.96 0.96 0.2 0.9 0.5).energy_kwh :=
  c5_round_trip_loss (EnergyStorageSystem.init 16 3 12.8 0.96 0.96 0.2 0.9 0.5) 10 1
    (by norm_num) (by norm_num)
    (by norm_num [EnergyStorageSystem.init]) (by norm_num [EnergyStorageSystem.init])
    (by norm_num [EnergyStorageSystem.init]) (by norm_num [EnergyStorageSystem.init])
    (by norm_num [EnergyStorageSystem.init]) (by norm_num [EnergyStorageSystem.init])

/-- C8: from any construction with initial fill fraction in [0, 100] %, and
along any sequence of valid produce/consume/idle calls, the stored hydrogen
mass stays within [0, tankCapacity]. -/
theorem c8_mass_invariant (sof t0 p0 : ℚ) (ops : List HOp)
    (hs0 : 0 ≤ sof) (hs1 : sof ≤ 100) (hops : ∀ op ∈ ops, op.valid) :
    0 ≤ ((HFS.init sof t0 p0).run ops).h2_kg ∧
    ((HFS.init sof t0 p0).run ops).h2_kg ≤ tank_capacity_kg := by
  apply HFS.run_mass_bounds ops _ hops
  · show 0 ≤ sof / 100 * tank_capacity_kg
    have hcap : (0:ℚ) ≤ tank_capacity_kg := by norm_num [tank_capacity_kg]
    exact mul_nonneg (div_nonneg hs0 (by norm_num)) hcap
  · show sof / 100 * tank_capacity_kg ≤ tank_capacity_kg
    rw [tank_capacity_kg]
    linarith

/-- C8 witness: a three-operation valid run from the 28 % fill default
state. -/
theorem c8_mass_invariant_witness :
    0 ≤ ((HFS.init 28 25 314).run
        [HOp.produce 120 1, HOp.consume 10 1, HOp.idle 1]).h2_kg ∧
    ((HFS.init 28 25 314).run
        [HOp.produce 120 1, HOp.consume 10 1, HOp.idle 1]).h2_kg ≤ tank_capacity_kg :=
  c8_mass_invariant 28 25 314 [HOp.produce 120 1, HOp.consume 10 1, HOp.idle 1]
    (by norm_num) (by norm_num)
    (by
      intro op hop
      fin_cases hop <;> norm_num [HOp.valid])

/-- C6 counterexample: at 46 °C with dt = 200 h, the forced cool-down clamps
the temperature at 0 °C instead of decreasing it by the full
cooldown-rate × dt = 100 °C, so the temperature does not decrease by exactly
the cool-down rate times dt as the claim states. -/
theorem c6_overheat_counterexample :
    45 < (HFS.init 28 46 314).temperature_c ∧
    ((HFS.init 28 46 314).produce 50 200).1.temperature_c = 0 ∧
    (HFS.init 28 46 314).temperature_c - beta_cooldown * 200 = -54 ∧
    ((HFS.init 28 46 314).produce 50 200).1.temperature_c ≠
      (HFS.init 28 46 314).temperature_c - beta_cooldown * 200 := by
  refine ⟨by norm_num [HFS.init], ?_, ?_, ?_⟩ <;>
    norm_num [HFS.produce, HFS.init, HFS.update_temperature, beta_cooldown, max_def]

end HAIRO
